import Mathlib

set_option maxHeartbeats 1000000

/-
  Shallow embedding of varun-un/Ticker-Predictor, file src/model/bayesian_sarima.py
  (class BayesianSARIMA).  Floating-point values are modelled by rationals; the
  posterior sampler is a black box, so posterior values enter as parameters while
  the structural parts of training (differencing, validation, variable
  declaration, lag-slice construction) are embedded from the source.
-/

namespace BayesianSARIMA

/-- The (p,d,q)(P,D,Q,m) order fields set by `BayesianSARIMA.__init__`. -/
structure SarimaOrder where
  p : ℕ
  d : ℕ
  q : ℕ
  seasonal : Bool
  m : ℕ
  P : ℕ
  D : ℕ
  Q : ℕ
deriving DecidableEq

/-- One application of first-order differencing: result i = y (i+1) - y i. -/
def firstDiff (y : List ℚ) : List ℚ :=
  List.zipWith (fun a b => a - b) (y.drop 1) y

/-- Iterated first-order differencing as the spec's Differencer contract defines it
(`y_t <- y_t - y_{t-1}` applied d times, dropping one leading point per pass).
This follows the spec's words; it is the comparison point for the refinement
claim about the nonseasonal differencing step of train. -/
def iterated_difference (y : List ℚ) : ℕ → List ℚ
  | 0 => y
  | d + 1 => iterated_difference (firstDiff y) d

/-- Embedding of `y.diff(d).dropna().values` from train (pandas semantics):
a single lag-d difference, result i = y (i+d) - y i, of length (length y) - d.
For d = 0 pandas returns y - y, the all-zero series of full length. -/
def pandasDiff (y : List ℚ) (d : ℕ) : List ℚ :=
  List.zipWith (fun a b => a - b) (y.drop d) y

/-- Embedding of `BayesianSARIMA.seasonal_difference`: D passes of
`y_diff = y_diff[m:] - y_diff[:-m]`. -/
def seasonal_difference (y : List ℚ) (D m : ℕ) : List ℚ :=
  match D with
  | 0 => y
  | D' + 1 => seasonal_difference (List.zipWith (fun a b => a - b) (y.drop m) y) D' m

/-- The differencing pipeline at the start of train: nonseasonal step
`y.diff(d).dropna()` followed, when `seasonal and D > 0 and m > 1`, by
`seasonal_difference`. -/
def trainDiffSeries (o : SarimaOrder) (y : List ℚ) : List ℚ :=
  let ynd := pandasDiff y o.d
  if o.seasonal ∧ 0 < o.D ∧ 1 < o.m then seasonal_difference ynd o.D o.m else ynd

/-- The bound of train's length validation:
`max(self.p, self.q, self.P*self.m, self.Q*self.m)` (note: no seasonal guard). -/
def trainMinBound (o : SarimaOrder) : ℕ :=
  max (max o.p o.q) (max (o.P * o.m) (o.Q * o.m))

/-- `start_index = max(self.p, self.P*self.m if self.seasonal else 0)` in train. -/
def startIndex (o : SarimaOrder) : ℕ :=
  max o.p (if o.seasonal then o.P * o.m else 0)

/-- `pad = self.q + (self.Q * self.m if self.seasonal else 0)` in train. -/
def epsPad (o : SarimaOrder) : ℕ :=
  o.q + (if o.seasonal then o.Q * o.m else 0)

/-- The structural content of the PyMC model graph built by train: which
coefficient vectors are declared and with what shapes, the eps length, and the
(start, stop) index pairs of every lag slice taken from the differenced series
and from eps, plus the observed data. Slices are recorded exactly as the source
writes them: AR uses `y_diff[start_index - i : -i]`, seasonal AR
`y_diff[start_index - I*m : -I*m]`, MA `eps[start_index + pad - j : -j]`,
seasonal MA `eps[start_index + pad - J*m : -J*m]`, with a Python negative stop
`-k` on a length-L container meaning stop L - k. -/
structure ModelGraph where
  phiShape : ℕ
  thetaShape : ℕ
  PHIShape : Option ℕ
  THETAShape : Option ℕ
  epsLength : ℕ
  startIdx : ℕ
  arSlices : List (ℕ × ℕ)
  sarSlices : List (ℕ × ℕ)
  maSlices : List (ℕ × ℕ)
  smaSlices : List (ℕ × ℕ)
  series : List ℚ
  obs : List ℚ
deriving DecidableEq

/-- Build the model graph from the differenced series, mirroring the body of
train after the length validation. `PHI`/`THETA` are declared only under
`seasonal and m > 1`; the seasonal slice families only under
`seasonal and P > 0 and m > 1` (resp. Q). -/
def buildGraph (o : SarimaOrder) (ydiff : List ℚ) : ModelGraph :=
  let N := ydiff.length
  let si := startIndex o
  let pd := epsPad o
  { phiShape := o.p
    thetaShape := o.q
    PHIShape := if o.seasonal ∧ 1 < o.m then some o.P else none
    THETAShape := if o.seasonal ∧ 1 < o.m then some o.Q else none
    epsLength := N + pd
    startIdx := si
    arSlices := (List.range o.p).map (fun k => (si - (k + 1), N - (k + 1)))
    sarSlices := if o.seasonal ∧ 0 < o.P ∧ 1 < o.m then
        (List.range o.P).map (fun k => (si - (k + 1) * o.m, N - (k + 1) * o.m))
      else []
    maSlices := (List.range o.q).map (fun k => (si + pd - (k + 1), N + pd - (k + 1)))
    smaSlices := if o.seasonal ∧ 0 < o.Q ∧ 1 < o.m then
        (List.range o.Q).map (fun k => (si + pd - (k + 1) * o.m, N + pd - (k + 1) * o.m))
      else []
    series := ydiff
    obs := ydiff.drop si }

/-- The exact message of train's insufficient-data ValueError. -/
def insufficientDataMsg : String :=
  "Not enough data after differencing for given ARIMA and seasonal orders"

/-- Embedding of `BayesianSARIMA.train` up to the posterior-sampling call:
difference, validate `N <= max(p, q, P*m, Q*m)`, then build the model graph. -/
def train (o : SarimaOrder) (y : List ℚ) : Except String ModelGraph :=
  let ydiff := trainDiffSeries o y
  if ydiff.length ≤ trainMinBound o then .error insufficientDataMsg
  else .ok (buildGraph o ydiff)

/-- The posterior trace as predict reads it: per-parameter posterior means.
`PHI`/`THETA` are `none` when the corresponding variable is absent from the
trace (train declares them only when `seasonal and m > 1`). -/
structure Posterior where
  phi : List ℚ
  theta : List ℚ
  PHI : Option (List ℚ)
  THETA : Option (List ℚ)
  sigma : ℚ
  eps : List ℚ
deriving DecidableEq

/-- Raw sampler output for a training run (values are the sampler's business;
only which keys exist in the trace is determined by train). -/
structure SamplerOut where
  phi : List ℚ
  theta : List ℚ
  PHI : List ℚ
  THETA : List ℚ
  sigma : ℚ
  eps : List ℚ

/-- The posterior trace a successful train leaves behind: `PHI`/`THETA`
entries exist exactly when train declared them, i.e. when `seasonal and m > 1`. -/
def trainPosterior (o : SarimaOrder) (v : SamplerOut) : Posterior :=
  { phi := v.phi
    theta := v.theta
    PHI := if o.seasonal ∧ 1 < o.m then some v.PHI else none
    THETA := if o.seasonal ∧ 1 < o.m then some v.THETA else none
    sigma := v.sigma
    eps := v.eps }

/-- The errors predict can raise: the untrained check, a missing `PHI`/`THETA`
key in the trace (Python KeyError), and the observation-count ValueError
(which carries `req_length` in its message). -/
inductive PredictError
  | notTrained
  | missingPHI
  | missingTHETA
  | insufficientObservations (req : ℕ)
deriving DecidableEq

/-- `req_length = max(self.p, self.P * self.m if (self.seasonal and self.m > 1) else 0)`
from predict. -/
def reqLength (o : SarimaOrder) : ℕ :=
  max o.p (if o.seasonal ∧ 1 < o.m then o.P * o.m else 0)

/-- The required observation count as the spec words it:
`max(p, seasonal ? P*m : 0)` with no `m > 1` guard. Follows the spec's words,
for comparison with `reqLength` from the source. -/
def reqLengthClaimed (o : SarimaOrder) : ℕ :=
  max o.p (if o.seasonal then o.P * o.m else 0)

/-- Python slice `xs[-k:]`: for k = 0 this is the whole list (since -0 is 0),
otherwise the last k elements (the whole list when k exceeds the length). -/
def lastSlice (xs : List ℚ) (k : ℕ) : List ℚ :=
  if k = 0 then xs else xs.drop (xs.length - k)

/-- Python element access `xs[-i]` for 1 ≤ i ≤ length xs. -/
def negGet (xs : List ℚ) (i : ℕ) : ℚ :=
  xs.getD (xs.length - i) 0

/-- `np.dot` on two equally-shaped vectors. -/
def dot (a b : List ℚ) : ℚ :=
  (List.zipWith (fun x y => x * y) a b).sum

/-- The growable windows of the forecast loop. -/
structure FState where
  ar : List ℚ
  sar : List ℚ
  ma : List ℚ
deriving DecidableEq

/-- One iteration of predict's forecast loop. The AR component is
`np.dot(phi_post, ar_terms[-p:])`, the seasonal AR component sums
`PHI_post[I-1] * sar_terms[-I*m]`, the MA component is
`np.dot(theta_post, ma_terms[-q:])` plus the seasonal sum of
`THETA_post[J-1] * ma_terms[-J*m]`; `epsv` is the noise draw of this step. -/
def forecastStep (o : SarimaOrder) (post : Posterior) (PHIv THETAv : List ℚ)
    (epsv : ℚ) (st : FState) : FState × ℚ :=
  let arC : ℚ := if 0 < o.p then dot post.phi (lastSlice st.ar o.p) else 0
  let sarC : ℚ := if o.seasonal ∧ 0 < o.P ∧ 1 < o.m then
      ((List.range o.P).map (fun k => PHIv.getD k 0 * negGet st.sar ((k + 1) * o.m))).sum
    else 0
  let maC : ℚ :=
    (if 0 < o.q then dot post.theta (lastSlice st.ma o.q) else 0) +
    (if o.seasonal ∧ 0 < o.Q ∧ 1 < o.m then
      ((List.range o.Q).map (fun k => THETAv.getD k 0 * negGet st.ma ((k + 1) * o.m))).sum
    else 0)
  let yhat := arC + sarC + maC + epsv
  let qT := o.q + (if o.seasonal then o.Q * o.m else 0)
  ({ ar := if 0 < o.p then st.ar ++ [yhat] else st.ar
     sar := if o.seasonal ∧ 0 < o.P ∧ 1 < o.m then st.sar ++ [yhat] else st.sar
     ma := if 0 < qT then st.ma ++ [epsv] else st.ma }, yhat)

/-- predict's forecast loop: run `forecastStep` the given number of times,
feeding noise draws from the stream by step index, collecting the forecasts. -/
def forecastLoop (o : SarimaOrder) (post : Posterior) (PHIv THETAv : List ℚ)
    (noise : ℕ → ℚ) : ℕ → ℕ → FState → List ℚ
  | 0, _, _ => []
  | s + 1, k, st =>
    let r := forecastStep o post PHIv THETAv (noise k) st
    r.2 :: forecastLoop o post PHIv THETAv noise s (k + 1) r.1

/-- Reading `self.trace.posterior['PHI']` in predict: attempted whenever
`self.seasonal and self.P > 0` (no m > 1 guard), a KeyError when absent. -/
def getPHI (o : SarimaOrder) (post : Posterior) : Except PredictError (List ℚ) :=
  if o.seasonal ∧ 0 < o.P then
    match post.PHI with
    | some v => .ok v
    | none => .error .missingPHI
  else .ok []

/-- Reading `self.trace.posterior['THETA']` in predict: attempted whenever
`self.seasonal and self.Q > 0`. -/
def getTHETA (o : SarimaOrder) (post : Posterior) : Except PredictError (List ℚ) :=
  if o.seasonal ∧ 0 < o.Q then
    match post.THETA with
    | some v => .ok v
    | none => .error .missingTHETA
  else .ok []

/-- Embedding of `BayesianSARIMA.predict` on a trained trace. The noise stream
stands for the successive `np.random.normal(0, sigma_post)` draws; with
sigma = 0 the draws are exactly 0. Steps, in source order: read `PHI`/`THETA`
when their guards hold; reject `last_observations` when it is None or shorter
than `req_length`; keep only the most recent `req_length` entries when longer
(a no-op when `req_length` is 0, since Python's `[-0:]` is the whole list);
seed the MA window from the last `q_total` posterior eps means, the AR window
from the last p observations, the seasonal AR window from the last P*m
observations; then run the forecast loop. -/
def predict (o : SarimaOrder) (post : Posterior) (steps : ℕ)
    (lastObservations : Option (List ℚ)) (noise : ℕ → ℚ) :
    Except PredictError (List ℚ) :=
  match getPHI o post with
  | .error e => .error e
  | .ok PHIv =>
    match getTHETA o post with
    | .error e => .error e
    | .ok THETAv =>
      match lastObservations with
      | none => .error (.insufficientObservations (reqLength o))
      | some xs =>
        if xs.length < reqLength o then .error (.insufficientObservations (reqLength o))
        else
          let ys := if reqLength o < xs.length then lastSlice xs (reqLength o) else xs
          let qT := o.q + (if o.seasonal then o.Q * o.m else 0)
          let st : FState :=
            { ar := if 0 < o.p then lastSlice ys o.p else []
              sar := if o.seasonal ∧ 0 < o.P ∧ 1 < o.m then lastSlice ys (o.P * o.m) else []
              ma := if 0 < qT then lastSlice post.eps qT else [] }
          .ok (forecastLoop o post PHIv THETAv noise steps 0 st)

/-- The mutable state of a BayesianSARIMA instance: the constructor-set name
and order, plus `self.model` and `self.trace` (both None until trained). -/
structure ModelState where
  name : String
  order : SarimaOrder
  model : Option ModelGraph
  trace : Option Posterior

/-- What save pickles: the dictionary with keys 'model' and 'trace'. -/
structure SavedData where
  model : Option ModelGraph
  trace : Option Posterior
deriving DecidableEq

/-- The file location save and load derive from the model's name:
`Path(__file__).parent / "../../models/arima/{name}.pkl"` (the fixed directory
part concatenated with the name and extension). -/
def savePath (name : String) : String :=
  "../../models/arima/" ++ name ++ ".pkl"

/-- The exact message of save's untrained ValueError. -/
def notTrainedMsg : String := "Model has not been trained yet."

/-- Embedding of `BayesianSARIMA.save`: fails iff `self.model is None`;
otherwise returns the name-derived location and the pickled pair of
`self.model` and `self.trace` (the trace is written even when it is None). -/
def save (s : ModelState) : Except String (String × SavedData) :=
  match s.model with
  | none => .error notTrainedMsg
  | some _ => .ok (savePath s.name, { model := s.model, trace := s.trace })

/-- Embedding of `BayesianSARIMA.load`: overwrite `self.model` and
`self.trace` from the unpickled data, touching nothing else. -/
def load (s : ModelState) (dat : SavedData) : ModelState :=
  { s with model := dat.model, trace := dat.trace }

/-- predict as invoked on an instance: the untrained check
`if self.trace is None` comes first, then the trained-trace path. -/
def predictState (s : ModelState) (steps : ℕ) (lastObservations : Option (List ℚ))
    (noise : ℕ → ℚ) : Except PredictError (List ℚ) :=
  match s.trace with
  | none => .error .notTrained
  | some post => predict s.order post steps lastObservations noise

/-- Whether an Except value is a success. -/
def isOkE {E A : Type} : Except E A → Bool
  | .ok _ => true
  | .error _ => false

/-- The order with its seasonal order fields zeroed, the conceptual
normalization the spec attaches to `seasonal=false`. -/
def zeroSeasonalOrders (o : SarimaOrder) : SarimaOrder :=
  { o with P := 0, D := 0, Q := 0 }

/-- The value predict binds for PHI when the trace lookup succeeds. -/
def PHIval (o : SarimaOrder) (post : Posterior) : List ℚ :=
  if o.seasonal ∧ 0 < o.P then post.PHI.getD [] else []

/-- The value predict binds for THETA when the trace lookup succeeds. -/
def THETAval (o : SarimaOrder) (post : Posterior) : List ℚ :=
  if o.seasonal ∧ 0 < o.Q then post.THETA.getD [] else []

theorem getPHI_eq_ok (o : SarimaOrder) (post : Posterior)
    (h : (o.seasonal ∧ 0 < o.P) → post.PHI.isSome = true) :
    getPHI o post = .ok (PHIval o post) := by
  unfold getPHI PHIval
  by_cases hc : o.seasonal ∧ 0 < o.P
  · cases hv : post.PHI with
    | none =>
      rw [hv] at h; simp at h
      exact absurd (h hc.1) (Nat.pos_iff_ne_zero.mp hc.2)
    | some v => simp [hc, hv]
  · simp [hc]

theorem getTHETA_eq_ok (o : SarimaOrder) (post : Posterior)
    (h : (o.seasonal ∧ 0 < o.Q) → post.THETA.isSome = true) :
    getTHETA o post = .ok (THETAval o post) := by
  unfold getTHETA THETAval
  by_cases hc : o.seasonal ∧ 0 < o.Q
  · cases hv : post.THETA with
    | none =>
      rw [hv] at h; simp at h
      exact absurd (h hc.1) (Nat.pos_iff_ne_zero.mp hc.2)
    | some v => simp [hc, hv]
  · simp [hc]

theorem forecastStep_zeroSeasonal (o : SarimaOrder) (h : o.seasonal = false)
    (post : Posterior) (PHIv THETAv : List ℚ) (e : ℚ) (st : FState) :
    forecastStep (zeroSeasonalOrders o) post PHIv THETAv e st =
      forecastStep o post PHIv THETAv e st := by
  simp [forecastStep, zeroSeasonalOrders, h]

theorem forecastLoop_zeroSeasonal (o : SarimaOrder) (h : o.seasonal = false)
    (post : Posterior) (PHIv THETAv : List ℚ) (noise : ℕ → ℚ) (n : ℕ) :
    ∀ (k : ℕ) (st : FState),
      forecastLoop (zeroSeasonalOrders o) post PHIv THETAv noise n k st =
        forecastLoop o post PHIv THETAv noise n k st := by
  induction n with
  | zero => intro k st; rfl
  | succ n ih =>
    intro k st
    simp only [forecastLoop, forecastStep_zeroSeasonal o h]
    exact congrArg _ (ih (k + 1) _)

/-- C1: with p=2, q=0, no seasonality, posterior means phi=[0.5, 0.3], sigma=0
and last observations [10, 20] (most recent last), predict returns
[11, 13.3], not the [13, 12.5] the claim requires: the code computes
np.dot(phi_post, ar_terms[-p:]), which pairs phi_1 with the oldest entry of
the window instead of the most recent one, the reverse of the lag alignment
used by the training likelihood and stated by the claim. -/
theorem C1_predict_pairs_phi_with_oldest :
    predict ⟨2, 0, 0, false, 1, 0, 0, 0⟩
        ⟨[1/2, 3/10], [], none, none, 0, []⟩ 2 (some [10, 20]) (fun _ => 0) =
      .ok [11, 133/10] ∧
    ((.ok [11, 133/10] : Except PredictError (List ℚ)) ≠ .ok [13, 25/2]) := by
  constructor
  · norm_num [predict, getPHI, getTHETA, reqLength, lastSlice, forecastLoop,
      forecastStep, dot, negGet]
  · intro hc
    have h2 := Except.ok.inj hc
    simp only [List.cons.injEq] at h2
    norm_num at h2

/-- C2: the nonseasonal differencing step of train is `y.diff(d).dropna()`,
a single lag-d difference (pandas semantics), not d iterated first-order
differences: on y = [1, 2, 4] with d = 2 train's step yields [4 - 1] = [3],
while iterated differencing yields [1]. -/
theorem C2_train_uses_single_lag_d_difference :
    trainDiffSeries ⟨0, 2, 0, false, 1, 0, 0, 0⟩ [1, 2, 4] = [3] ∧
    iterated_difference [1, 2, 4] 2 = [1] ∧
    trainDiffSeries ⟨0, 2, 0, false, 1, 0, 0, 0⟩ [1, 2, 4] ≠
      iterated_difference [1, 2, 4] 2 := by
  refine ⟨?_, ?_, ?_⟩
  · norm_num [trainDiffSeries, pandasDiff]
  · norm_num [iterated_difference, firstDiff]
  · norm_num [trainDiffSeries, pandasDiff, iterated_difference, firstDiff]

/-- C3 counterexample: with seasonal=false, p=1 and P=5 (m=1), train on a
3-point series fails the length validation, while the same model with
P=D=Q=0 trains fine — so train does not fully ignore P, D, Q when
seasonal=false. -/
theorem C3_validation_reads_seasonal_orders :
    isOkE (train ⟨1, 0, 0, false, 1, 5, 0, 0⟩ [1, 2, 4]) = false ∧
    isOkE (train (zeroSeasonalOrders ⟨1, 0, 0, false, 1, 5, 0, 0⟩) [1, 2, 4]) = true := by
  constructor <;> rfl

/-- C3 amended: with seasonal=false, the differencing pipeline, the model
graph (priors, eps padding, mean-term slices), start_index, pad, predict's
required observation count and the whole of predict coincide with the
P=D=Q=0 model; only train's length-validation bound max(p, q, P*m, Q*m)
still reads P and Q. -/
theorem C3_seasonal_false_equivalence (o : SarimaOrder) (y s : List ℚ)
    (post : Posterior) (steps : ℕ) (obs : Option (List ℚ)) (noise : ℕ → ℚ)
    (h : o.seasonal = false) :
    trainDiffSeries o y = trainDiffSeries (zeroSeasonalOrders o) y ∧
    buildGraph o s = buildGraph (zeroSeasonalOrders o) s ∧
    startIndex o = startIndex (zeroSeasonalOrders o) ∧
    epsPad o = epsPad (zeroSeasonalOrders o) ∧
    reqLength o = reqLength (zeroSeasonalOrders o) ∧
    predict o post steps obs noise = predict (zeroSeasonalOrders o) post steps obs noise ∧
    trainMinBound o = max (max o.p o.q) (max (o.P * o.m) (o.Q * o.m)) := by
  obtain ⟨p, d, q, seas, m, P, D, Q⟩ := o
  simp only at h
  subst h
  refine ⟨?_, ?_, ?_, ?_, ?_, ?_, rfl⟩
  · simp [trainDiffSeries, zeroSeasonalOrders]
  · simp [buildGraph, startIndex, epsPad, zeroSeasonalOrders]
  · simp [startIndex, zeroSeasonalOrders]
  · simp [epsPad, zeroSeasonalOrders]
  · simp [reqLength, zeroSeasonalOrders]
  · cases obs with
    | none => simp [predict, getPHI, getTHETA, reqLength, zeroSeasonalOrders]
    | some xs =>
      simp only [predict, getPHI, getTHETA, reqLength, zeroSeasonalOrders]
      norm_num
      split
      · rfl
      · exact congrArg _
          (forecastLoop_zeroSeasonal ⟨p, d, q, false, m, P, D, Q⟩ rfl post [] []
            noise steps 0 _).symm

/-- Witness for C3: the seasonal=false equivalence at a concrete order with
nonzero P, D, Q. -/
theorem C3_seasonal_false_equivalence_witness :
    trainDiffSeries ⟨1, 2, 3, false, 4, 5, 6, 7⟩ [1, 2, 3] =
      trainDiffSeries (zeroSeasonalOrders ⟨1, 2, 3, false, 4, 5, 6, 7⟩) [1, 2, 3] ∧
    buildGraph ⟨1, 2, 3, false, 4, 5, 6, 7⟩ [4, 5] =
      buildGraph (zeroSeasonalOrders ⟨1, 2, 3, false, 4, 5, 6, 7⟩) [4, 5] ∧
    startIndex ⟨1, 2, 3, false, 4, 5, 6, 7⟩ =
      startIndex (zeroSeasonalOrders ⟨1, 2, 3, false, 4, 5, 6, 7⟩) ∧
    epsPad ⟨1, 2, 3, false, 4, 5, 6, 7⟩ =
      epsPad (zeroSeasonalOrders ⟨1, 2, 3, false, 4, 5, 6, 7⟩) ∧
    reqLength ⟨1, 2, 3, false, 4, 5, 6, 7⟩ =
      reqLength (zeroSeasonalOrders ⟨1, 2, 3, false, 4, 5, 6, 7⟩) ∧
    predict ⟨1, 2, 3, false, 4, 5, 6, 7⟩ ⟨[1], [2], some [3], none, 1, [5]⟩ 1
        (some [9]) (fun _ => 0) =
      predict (zeroSeasonalOrders ⟨1, 2, 3, false, 4, 5, 6, 7⟩)
        ⟨[1], [2], some [3], none, 1, [5]⟩ 1 (some [9]) (fun _ => 0) ∧
    trainMinBound ⟨1, 2, 3, false, 4, 5, 6, 7⟩ = max (max 1 3) (max (5 * 4) (7 * 4)) :=
  C3_seasonal_false_equivalence ⟨1, 2, 3, false, 4, 5, 6, 7⟩ [1, 2, 3] [4, 5]
    ⟨[1], [2], some [3], none, 1, [5]⟩ 1 (some [9]) (fun _ => 0) rfl

/-- C4 counterexample: two orders whose minimum required lengths differ (1
versus 5) raise the identical fixed error, so the raised error does not carry
the minimum required length. -/
theorem C4_error_carries_no_minimum :
    train ⟨1, 0, 0, false, 1, 0, 0, 0⟩ [1] = .error insufficientDataMsg ∧
    train ⟨5, 0, 0, false, 1, 0, 0, 0⟩ [1] = .error insufficientDataMsg ∧
    trainMinBound ⟨1, 0, 0, false, 1, 0, 0, 0⟩ ≠
      trainMinBound ⟨5, 0, 0, false, 1, 0, 0, 0⟩ :=
  ⟨rfl, rfl, by decide⟩

/-- C4 amended: train raises the insufficient-data error exactly when the
differenced length N satisfies N <= max(p, q, P*m, Q*m) — but with a fixed
message that does not carry the minimum required length — and otherwise
returns the graph built over the full differenced series, untruncated. -/
theorem C4_validation_boundary (o : SarimaOrder) (y : List ℚ) :
    (train o y = .ok (buildGraph o (trainDiffSeries o y)) ↔
      trainMinBound o < (trainDiffSeries o y).length) ∧
    (train o y = .error insufficientDataMsg ↔
      (trainDiffSeries o y).length ≤ trainMinBound o) := by
  by_cases hc : (trainDiffSeries o y).length ≤ trainMinBound o
  all_goals simp [train, hc]
  all_goals omega

/-- C5 counterexample: at p=1, seasonal=true, m=1, P=3 the claim's formula
max(p, seasonal ? P*m : 0) demands 3 observations, but predict's req_length
uses the extra m>1 guard and demands only 1, so a single observation passes
the check and predict returns a forecast instead of raising
InsufficientObservations. -/
theorem C5_req_length_has_m_guard :
    reqLengthClaimed ⟨1, 0, 0, true, 1, 3, 0, 0⟩ = 3 ∧
    reqLength ⟨1, 0, 0, true, 1, 3, 0, 0⟩ = 1 ∧
    predict ⟨1, 0, 0, true, 1, 3, 0, 0⟩ ⟨[1/2], [], some [1, 1, 1], none, 0, []⟩ 1
      (some [4]) (fun _ => 0) = .ok [2] := by
  refine ⟨by decide, by decide, ?_⟩
  norm_num [predict, getPHI, getTHETA, reqLength, lastSlice, forecastLoop,
    forecastStep, dot, negGet]

/-- Trimming to the most recent `req` observations, in predict's own phrasing,
equals dropping all but the last `req` entries (for 0 < req ≤ length). -/
theorem trimmed_obs_eq (xs : List ℚ) (req : ℕ) (h0 : 0 < req)
    (h : req ≤ xs.length) :
    (if req < xs.length then lastSlice xs req else xs) =
      xs.drop (xs.length - req) := by
  by_cases hc : req < xs.length
  · simp [hc, lastSlice, Nat.pos_iff_ne_zero.mp h0]
  · have heq : req = xs.length := by omega
    simp [hc, heq]

/-- Prepending older observations does not change the trimmed window. -/
theorem trimmed_obs_append (xs extra : List ℚ) (req : ℕ) (h0 : 0 < req)
    (h : req ≤ xs.length) :
    (if req < (extra ++ xs).length then lastSlice (extra ++ xs) req
      else extra ++ xs) =
      (if req < xs.length then lastSlice xs req else xs) := by
  rw [trimmed_obs_eq xs req h0 h,
    trimmed_obs_eq (extra ++ xs) req h0 (by simp; omega)]
  have hlen : (extra ++ xs).length - req = extra.length + (xs.length - req) := by
    simp; omega
  rw [hlen, List.drop_append]

/-- C5 amended: predict raises the untrained error whenever no posterior is
present; on a trained trace (with the PHI/THETA entries its guards read
actually present) it raises the insufficient-observations error exactly when
last_observations is None or shorter than
req_length = max(p, (seasonal and m>1) ? P*m : 0) — the code's formula carries
an m>1 guard the claim omits — and with at least req_length observations it
succeeds, with the forecast unchanged by prepending older observations. -/
theorem C5_observation_preconditions (o : SarimaOrder) (post : Posterior)
    (steps : ℕ) (xs extra : List ℚ) (noise : ℕ → ℚ) (name : String)
    (g : Option ModelGraph)
    (hPHI : (o.seasonal ∧ 0 < o.P) → post.PHI.isSome = true)
    (hTHETA : (o.seasonal ∧ 0 < o.Q) → post.THETA.isSome = true) :
    predictState ⟨name, o, g, none⟩ steps (some xs) noise = .error .notTrained ∧
    predict o post steps none noise =
      .error (.insufficientObservations (reqLength o)) ∧
    (xs.length < reqLength o → predict o post steps (some xs) noise =
      .error (.insufficientObservations (reqLength o))) ∧
    (reqLength o ≤ xs.length →
      isOkE (predict o post steps (some xs) noise) = true) ∧
    (reqLength o ≤ xs.length →
      predict o post steps (some (extra ++ xs)) noise =
        predict o post steps (some xs) noise) := by
  have hP := getPHI_eq_ok o post hPHI
  have hT := getTHETA_eq_ok o post hTHETA
  refine ⟨rfl, ?_, ?_, ?_, ?_⟩
  · simp [predict, hP, hT]
  · intro hlt
    simp [predict, hP, hT, hlt]
  · intro hge
    have hnlt : ¬ xs.length < reqLength o := Nat.not_lt.mpr hge
    simp [predict, hP, hT, hnlt, isOkE]
  · intro hge
    have hge2 : reqLength o ≤ (extra ++ xs).length := by simp; omega
    have hnlt : ¬ xs.length < reqLength o := Nat.not_lt.mpr hge
    have hnlt2 : ¬ (extra ++ xs).length < reqLength o := Nat.not_lt.mpr hge2
    by_cases hreq0 : reqLength o = 0
    · have hp : o.p = 0 := by
        by_cases hg : o.seasonal ∧ 1 < o.m <;> simp [reqLength, hg] at hreq0 <;> omega
      have hguard : ¬ (o.seasonal ∧ 0 < o.P ∧ 1 < o.m) := by
        rintro ⟨h1, h2, h3⟩
        rw [reqLength, if_pos ⟨h1, h3⟩] at hreq0
        have := Nat.mul_pos h2 (by omega : 0 < o.m)
        omega
      simp [predict, hP, hT, hreq0, hp, hguard, lastSlice]
    · have hys := trimmed_obs_append xs extra (reqLength o)
        (Nat.pos_of_ne_zero hreq0) hge
      simp only [predict, hP, hT, hnlt, hnlt2, if_false, hys]

/-- Witness for C5: the preconditions at a concrete ARMA(1,1) model. -/
theorem C5_observation_preconditions_witness :
    predictState ⟨"w", ⟨1, 0, 1, false, 1, 0, 0, 0⟩, none, none⟩ 1 (some [7])
        (fun _ => 0) = .error .notTrained ∧
    predict ⟨1, 0, 1, false, 1, 0, 0, 0⟩ ⟨[1/2], [1/3], none, none, 0, [2]⟩ 1 none
        (fun _ => 0) =
      .error (.insufficientObservations (reqLength ⟨1, 0, 1, false, 1, 0, 0, 0⟩)) ∧
    (([7] : List ℚ).length < reqLength ⟨1, 0, 1, false, 1, 0, 0, 0⟩ →
      predict ⟨1, 0, 1, false, 1, 0, 0, 0⟩ ⟨[1/2], [1/3], none, none, 0, [2]⟩ 1
          (some [7]) (fun _ => 0) =
        .error (.insufficientObservations (reqLength ⟨1, 0, 1, false, 1, 0, 0, 0⟩))) ∧
    (reqLength ⟨1, 0, 1, false, 1, 0, 0, 0⟩ ≤ ([7] : List ℚ).length →
      isOkE (predict ⟨1, 0, 1, false, 1, 0, 0, 0⟩
        ⟨[1/2], [1/3], none, none, 0, [2]⟩ 1 (some [7]) (fun _ => 0)) = true) ∧
    (reqLength ⟨1, 0, 1, false, 1, 0, 0, 0⟩ ≤ ([7] : List ℚ).length →
      predict ⟨1, 0, 1, false, 1, 0, 0, 0⟩ ⟨[1/2], [1/3], none, none, 0, [2]⟩ 1
          (some ([5] ++ [7])) (fun _ => 0) =
        predict ⟨1, 0, 1, false, 1, 0, 0, 0⟩ ⟨[1/2], [1/3], none, none, 0, [2]⟩ 1
          (some [7]) (fun _ => 0)) :=
  C5_observation_preconditions ⟨1, 0, 1, false, 1, 0, 0, 0⟩
    ⟨[1/2], [1/3], none, none, 0, [2]⟩ 1 [7] [5] (fun _ => 0) "w" none
    (by decide) (by decide)

/-- C6: save succeeds on a state whose model graph was built but whose
posterior trace is absent (the state train leaves behind when sampling
fails), because save only checks `self.model is None`; it writes the pickled
model-and-trace pair (with a None trace) to the location derived from the
model's name. -/
theorem C6_save_accepts_missing_posterior :
    save { name := "ticker", order := ⟨1, 0, 0, false, 1, 0, 0, 0⟩,
           model := some (buildGraph ⟨1, 0, 0, false, 1, 0, 0, 0⟩ [0, 0, 0]),
           trace := none } =
      .ok (savePath "ticker",
        { model := some (buildGraph ⟨1, 0, 0, false, 1, 0, 0, 0⟩ [0, 0, 0]),
          trace := none }) ∧
    savePath "ticker" = "../../models/arima/ticker.pkl" :=
  ⟨rfl, rfl⟩

/-- C7: under the post-differencing length invariant
N > max(p, q, P*m, Q*m), every lag slice of train stays in bounds: each lag
(i, I*m into the series; j, J*m into eps) is at most the slice's start offset
(start_index, resp. start_index + pad), the slice has length N - start_index,
and the eps slices end within the padded eps vector. -/
theorem C7_lag_slices_in_bounds (o : SarimaOrder) (N i I j J : ℕ)
    (h : trainMinBound o < N) :
    (1 ≤ i → i ≤ o.p →
      i ≤ startIndex o ∧ startIndex o < N ∧
      (startIndex o - i) + (N - startIndex o) = N - i) ∧
    (o.seasonal = true → 1 < o.m → 1 ≤ I → I ≤ o.P →
      I * o.m ≤ startIndex o ∧
      (startIndex o - I * o.m) + (N - startIndex o) = N - I * o.m) ∧
    (1 ≤ j → j ≤ o.q →
      j ≤ startIndex o + epsPad o ∧
      N + epsPad o - j ≤ N + epsPad o ∧
      (startIndex o + epsPad o - j) + (N - startIndex o) = N + epsPad o - j) ∧
    (o.seasonal = true → 1 < o.m → 1 ≤ J → J ≤ o.Q →
      J * o.m ≤ startIndex o + epsPad o ∧
      (startIndex o + epsPad o - J * o.m) + (N - startIndex o) =
        N + epsPad o - J * o.m) := by
  unfold trainMinBound at h
  refine ⟨?_, ?_, ?_, ?_⟩
  · intro h1 h2
    unfold startIndex
    split <;> omega
  · intro hs hm h1 h2
    have hIm : I * o.m ≤ o.P * o.m := Nat.mul_le_mul_right o.m h2
    unfold startIndex
    simp only [hs, if_pos]
    omega
  · intro h1 h2
    unfold startIndex epsPad
    split <;> omega
  · intro hs hm h1 h2
    have hJm : J * o.m ≤ o.Q * o.m := Nat.mul_le_mul_right o.m h2
    unfold startIndex epsPad
    simp only [hs, if_pos]
    omega

/-- Witness for C7: the bounds at a concrete seasonal order and length. -/
theorem C7_lag_slices_in_bounds_witness :
    (1 ≤ 1 → 1 ≤ (2 : ℕ) →
      1 ≤ startIndex ⟨2, 0, 1, true, 3, 1, 0, 1⟩ ∧
      startIndex ⟨2, 0, 1, true, 3, 1, 0, 1⟩ < 10 ∧
      (startIndex ⟨2, 0, 1, true, 3, 1, 0, 1⟩ - 1) +
        (10 - startIndex ⟨2, 0, 1, true, 3, 1, 0, 1⟩) = 10 - 1) ∧
    ((⟨2, 0, 1, true, 3, 1, 0, 1⟩ : SarimaOrder).seasonal = true → 1 < (3 : ℕ) →
      1 ≤ 1 → 1 ≤ (1 : ℕ) →
      1 * 3 ≤ startIndex ⟨2, 0, 1, true, 3, 1, 0, 1⟩ ∧
      (startIndex ⟨2, 0, 1, true, 3, 1, 0, 1⟩ - 1 * 3) +
        (10 - startIndex ⟨2, 0, 1, true, 3, 1, 0, 1⟩) = 10 - 1 * 3) ∧
    (1 ≤ 1 → 1 ≤ (1 : ℕ) →
      1 ≤ startIndex ⟨2, 0, 1, true, 3, 1, 0, 1⟩ + epsPad ⟨2, 0, 1, true, 3, 1, 0, 1⟩ ∧
      10 + epsPad ⟨2, 0, 1, true, 3, 1, 0, 1⟩ - 1 ≤
        10 + epsPad ⟨2, 0, 1, true, 3, 1, 0, 1⟩ ∧
      (startIndex ⟨2, 0, 1, true, 3, 1, 0, 1⟩ + epsPad ⟨2, 0, 1, true, 3, 1, 0, 1⟩ - 1) +
        (10 - startIndex ⟨2, 0, 1, true, 3, 1, 0, 1⟩) =
        10 + epsPad ⟨2, 0, 1, true, 3, 1, 0, 1⟩ - 1) ∧
    ((⟨2, 0, 1, true, 3, 1, 0, 1⟩ : SarimaOrder).seasonal = true → 1 < (3 : ℕ) →
      1 ≤ 1 → 1 ≤ (1 : ℕ) →
      1 * 3 ≤ startIndex ⟨2, 0, 1, true, 3, 1, 0, 1⟩ + epsPad ⟨2, 0, 1, true, 3, 1, 0, 1⟩ ∧
      (startIndex ⟨2, 0, 1, true, 3, 1, 0, 1⟩ + epsPad ⟨2, 0, 1, true, 3, 1, 0, 1⟩ - 1 * 3) +
        (10 - startIndex ⟨2, 0, 1, true, 3, 1, 0, 1⟩) =
        10 + epsPad ⟨2, 0, 1, true, 3, 1, 0, 1⟩ - 1 * 3) :=
  C7_lag_slices_in_bounds ⟨2, 0, 1, true, 3, 1, 0, 1⟩ 10 1 1 1 1 (by decide)

/-- C8: with seasonal=true, m=1, P>0, train declares neither PHI nor THETA
(the declaration guard is seasonal and m>1) yet succeeds when the data
suffice, while predict reads the PHI posterior under the weaker guard
seasonal and P>0 and therefore fails on every call with the trace such a
training run leaves behind. -/
theorem C8_predict_reads_undeclared_PHI (o : SarimaOrder) (y : List ℚ)
    (v : SamplerOut) (steps : ℕ) (obs : Option (List ℚ)) (noise : ℕ → ℚ)
    (hs : o.seasonal = true) (hm : o.m = 1) (hP : 0 < o.P) :
    (buildGraph o (trainDiffSeries o y)).PHIShape = none ∧
    (buildGraph o (trainDiffSeries o y)).THETAShape = none ∧
    (trainMinBound o < (trainDiffSeries o y).length →
      train o y = .ok (buildGraph o (trainDiffSeries o y))) ∧
    predict o (trainPosterior o v) steps obs noise = .error .missingPHI := by
  refine ⟨?_, ?_, ?_, ?_⟩
  · simp [buildGraph, hm]
  · simp [buildGraph, hm]
  · intro hlen
    simp [train, Nat.not_le.mpr hlen]
  · simp [predict, getPHI, trainPosterior, hs, hm, hP]

/-- Witness for C8: the failure at a concrete order with m=1 and P=1. -/
theorem C8_predict_reads_undeclared_PHI_witness :
    (buildGraph ⟨0, 0, 0, true, 1, 1, 0, 0⟩
      (trainDiffSeries ⟨0, 0, 0, true, 1, 1, 0, 0⟩ [1, 2])).PHIShape = none ∧
    (buildGraph ⟨0, 0, 0, true, 1, 1, 0, 0⟩
      (trainDiffSeries ⟨0, 0, 0, true, 1, 1, 0, 0⟩ [1, 2])).THETAShape = none ∧
    (trainMinBound ⟨0, 0, 0, true, 1, 1, 0, 0⟩ <
        (trainDiffSeries ⟨0, 0, 0, true, 1, 1, 0, 0⟩ [1, 2]).length →
      train ⟨0, 0, 0, true, 1, 1, 0, 0⟩ [1, 2] =
        .ok (buildGraph ⟨0, 0, 0, true, 1, 1, 0, 0⟩
          (trainDiffSeries ⟨0, 0, 0, true, 1, 1, 0, 0⟩ [1, 2]))) ∧
    predict ⟨0, 0, 0, true, 1, 1, 0, 0⟩
      (trainPosterior ⟨0, 0, 0, true, 1, 1, 0, 0⟩ ⟨[], [], [], [], 0, []⟩) 1
      (some [1]) (fun _ => 0) = .error .missingPHI :=
  C8_predict_reads_undeclared_PHI ⟨0, 0, 0, true, 1, 1, 0, 0⟩ [1, 2]
    ⟨[], [], [], [], 0, []⟩ 1 (some [1]) (fun _ => 0) rfl rfl (by decide)

/-- C9: load overwrites only the model graph and the trace; the name and
every order field keep the values the constructor set, the saved snapshot
contains no order at all, and a predict after load runs with the receiving
object's order. -/
theorem C9_load_frame (s : ModelState) (dat : SavedData) (steps : ℕ)
    (obs : Option (List ℚ)) (noise : ℕ → ℚ) :
    (load s dat).name = s.name ∧
    (load s dat).order = s.order ∧
    (load s dat).model = dat.model ∧
    (load s dat).trace = dat.trace ∧
    predictState (load s dat) steps obs noise =
      (match dat.trace with
       | none => .error PredictError.notTrained
       | some post => predict s.order post steps obs noise) := by
  refine ⟨rfl, rfl, rfl, rfl, ?_⟩
  obtain ⟨mo, tr⟩ := dat
  cases tr <;> rfl

/-- C10: when req_length is 0 (p=0 and the seasonal AR window inactive), a
trained predict still rejects the omitted (None) default for
last_observations — the check tests `last_observations is None or ...` — yet
accepts every non-None sequence, including shorter or empty ones. -/
theorem C10_none_rejected_when_req_zero (o : SarimaOrder) (post : Posterior)
    (steps : ℕ) (noise : ℕ → ℚ) (xs : List ℚ)
    (hreq : reqLength o = 0)
    (hPHI : (o.seasonal ∧ 0 < o.P) → post.PHI.isSome = true)
    (hTHETA : (o.seasonal ∧ 0 < o.Q) → post.THETA.isSome = true) :
    predict o post steps none noise =
      .error (.insufficientObservations 0) ∧
    isOkE (predict o post steps (some xs) noise) = true := by
  have hP := getPHI_eq_ok o post hPHI
  have hT := getTHETA_eq_ok o post hTHETA
  constructor
  · simp [predict, hP, hT, hreq]
  · simp [predict, hP, hT, hreq, isOkE]

/-- Witness for C10: a trained q-only model (p=0, q=1, no seasonality):
omitting last_observations fails while an empty list succeeds. -/
theorem C10_none_rejected_when_req_zero_witness :
    predict ⟨0, 0, 1, false, 1, 0, 0, 0⟩ ⟨[], [1/3], none, none, 0, [2]⟩ 1 none
        (fun _ => 0) = .error (.insufficientObservations 0) ∧
    isOkE (predict ⟨0, 0, 1, false, 1, 0, 0, 0⟩ ⟨[], [1/3], none, none, 0, [2]⟩ 1
      (some []) (fun _ => 0)) = true :=
  C10_none_rejected_when_req_zero ⟨0, 0, 1, false, 1, 0, 0, 0⟩
    ⟨[], [1/3], none, none, 0, [2]⟩ 1 (fun _ => 0) [] (by decide) (by decide)
    (by decide)

end BayesianSARIMA
